import Mathlib

/-!
Verification development for the LassoESM example notebooks.

The repository has two notebooks:
* an embedding-extraction notebook defining `get_mean_rep` (mean-pooled
  last-hidden-layer embedding of one sequence) and `process_embeddings`
  (the batch driver over a CSV of sequences, persisting one `.npy`
  matrix per configured model), with the static `MODELS` configuration;
* a substrate-tolerance prediction notebook performing a grid search
  over four classifier families and evaluating the best parameters with
  repeated 10-fold cross-validation (`cv_res`).

The development below is a shallow embedding: numeric tensors are lists
of rationals, the pretrained encoder and tokenizer are abstract
structures whose shape contracts are recorded as fields, external
failures (unknown model, unreadable CSV, tokenization failure) are
`Except`/`Option` values, and the filesystem is an explicit map from
file names to saved matrices.
-/

/-- A matrix is a list of rows, each row a list of rationals. -/
def Matrix' : Type := List (List ℚ)

/-- One entry of the static model configuration dictionary:
`{"model_path": ..., "output_file": ...}`. -/
structure ModelConfig where
  model_path : String
  output_file : String
deriving DecidableEq, Repr

/-- The static `MODELS` configuration dictionary of the extraction
notebook, keyed by model name. -/
def MODELS : List (String × ModelConfig) :=
  [("Lasso_ESM",
     { model_path := "ShuklaGroupIllinois/LassoESM",
       output_file := "FusA_LassoESM.npy" }),
   ("VanillaESM",
     { model_path := "facebook/esm2_t33_650M_UR50D",
       output_file := "FusA_VanillaESM.npy" }),
   ("PeptideESM",
     { model_path := "ShuklaGroupIllinois/PeptideESM2_650M",
       output_file := "FusA_PeptideESM_650M.npy" })]

/-- The HuggingFace ESM tokenizer used by `get_mean_rep`
(`tokenizer(sequence, return_tensors='pt')`).  Its documented contract:
it maps each residue of the sequence to a token id and wraps the result
in the special begin-of-sequence and end-of-sequence token ids; it fails
(raises) when the sequence exceeds the model context or contains
unsupported characters, modelled by `encode_residues` returning
`none`. -/
structure Tokenizer where
  cls_id : Nat
  eos_id : Nat
  encode_residues : String → Option (List Nat)

/-- Full tokenizer output on one sequence: the residue token ids wrapped
in the begin- and end-of-sequence special tokens. -/
def Tokenizer.tokenize (t : Tokenizer) (s : String) : Option (List Nat) :=
  (t.encode_residues s).map (fun r => t.cls_id :: r ++ [t.eos_id])

/-- The pretrained encoder used by `get_mean_rep`
(`model(token_ids.input_ids, output_hidden_states=True)`): from the
token ids it produces the last hidden-state layer
`results.hidden_states[-1][0]`, a matrix of shape
(token_count, hidden_dim).  The shape facts are its documented
contract, recorded as proof fields. -/
structure EncoderModel where
  hidden_dim : Nat
  forward : List Nat → List (List ℚ)
  forward_rows : ∀ ids, (forward ids).length = ids.length
  forward_dim : ∀ ids, ∀ row ∈ forward ids, row.length = hidden_dim

/-- Mean across the token axis (`representations.mean(dim=0)`): for each
hidden dimension `j`, the average of component `j` over all rows. -/
def vecMean (rows : List (List ℚ)) (dim : Nat) : List ℚ :=
  (List.range dim).map
    (fun j => (rows.map (fun row => row.getD j 0)).sum / (rows.length : ℚ))

/-- `get_mean_rep(sequence, model, tokenizer)`: tokenize the sequence,
run one forward pass, take the last hidden-state layer and average it
across the token axis.  Tokenization failure propagates. -/
def get_mean_rep (sequence : String) (model : EncoderModel)
    (tokenizer : Tokenizer) : Option (List ℚ) :=
  match tokenizer.tokenize sequence with
  | none => none
  | some ids => some (vecMean (model.forward ids) model.hidden_dim)

/-- Error taxonomy of the batch driver. -/
inductive ExtractError where
  | configError (model_name : String)
  | resourceError
  | inputFormatError
  | tokenizationError
deriving DecidableEq, Repr

/-- Decidable equality of outcomes, so that concrete runs can be
checked by evaluation. -/
instance {ε α : Type} [DecidableEq ε] [DecidableEq α] :
    DecidableEq (Except ε α) := fun x y =>
  match x, y with
  | .ok a, .ok b =>
      if h : a = b then .isTrue (congrArg Except.ok h)
      else .isFalse (fun hc => h (Except.ok.inj hc))
  | .error a, .error b =>
      if h : a = b then .isTrue (congrArg Except.error h)
      else .isFalse (fun hc => h (Except.error.inj hc))
  | .ok _, .error _ => .isFalse (fun hc => Except.noConfusion hc)
  | .error _, .ok _ => .isFalse (fun hc => Except.noConfusion hc)

/-- The external collaborators of `process_embeddings`:
`from_pretrained` (loading model and tokenizer from a path, which can
fail for network/path reasons) and `pd.read_csv` followed by
`data.iloc[:, 0].tolist()` (reading the first column of the tabular
file as the sequence list; `none` models an empty file or one missing
the expected columns). -/
structure ExtractEnv where
  load : String → Option (EncoderModel × Tokenizer)
  read_csv : String → Option (List String)

/-- The filesystem state seen by `np.save`: a map from file names to the
matrix currently stored there. -/
def FsState : Type := String → Option (List (List ℚ))

/-- `np.save(name, m)`: store matrix `m` at `name`, overwriting any
prior contents; other files are untouched. -/
def fsWrite (fs : FsState) (name : String) (m : List (List ℚ)) : FsState :=
  fun n => if n = name then some m else fs n

/-- The list comprehension
`[get_mean_rep(seq, model, tokenizer) for seq in seq_ls]`: an exception
on any element aborts the whole comprehension, so the result is
all-or-nothing. -/
def embed_all (model : EncoderModel) (tokenizer : Tokenizer) :
    List String → Option (List (List ℚ))
  | [] => some []
  | s :: rest =>
      (get_mean_rep s model tokenizer).bind fun v =>
        (embed_all model tokenizer rest).map fun vs => v :: vs

/-- `process_embeddings(data_file, model_name)`: look up the model name
in `MODELS` (raising `ValueError` if absent), load model and tokenizer,
read the sequence column of the CSV, embed every sequence in order, and
save the stacked matrix to the configured output file.  Returns the
resulting filesystem together with the outcome; on every error path the
filesystem is returned unchanged. -/
def process_embeddings (env : ExtractEnv) (fs : FsState)
    (data_file model_name : String) :
    FsState × Except ExtractError (List (List ℚ)) :=
  match MODELS.lookup model_name with
  | none => (fs, .error (.configError model_name))
  | some config =>
    match env.load config.model_path with
    | none => (fs, .error .resourceError)
    | some (model, tokenizer) =>
      match env.read_csv data_file with
      | none => (fs, .error .inputFormatError)
      | some seq_ls =>
        match embed_all model tokenizer seq_ls with
        | none => (fs, .error .tokenizationError)
        | some seq_embs => (fsWrite fs config.output_file seq_embs, .ok seq_embs)

/-!
The substrate-tolerance prediction notebook: grid search over four
classifier families and evaluation of the best parameters by repeated
10-fold cross-validation (`cv_res`).
-/

/-- The four classifier families of the prediction notebook. -/
inductive Family where
  | RF
  | AdaBoost
  | SVC
  | MLP
deriving DecidableEq, Repr

/-- One hyperparameter value as it appears in the literal grids. -/
inductive HPValue where
  | nat (n : Nat)
  | rat (q : ℚ)
  | str (s : String)
  | pair (a b : Nat)
  | bool (b : Bool)
deriving DecidableEq, Repr

/-- A (possibly empty) assignment of hyperparameter names to values. -/
abbrev Params : Type := List (String × HPValue)

/-- A hyperparameter grid: per parameter name, the candidate values. -/
abbrev Grid : Type := List (String × List HPValue)

/-- A classifier as constructed in the notebook: its family, its
explicit constructor arguments, and the `random_state` argument
(`none` when the constructor is called without one, as in
`RandomForestClassifier()`). -/
structure ClassifierSpec where
  family : Family
  params : Params
  random_state : Option Nat
deriving DecidableEq

/-- `RepeatedKFold(n_splits=..., n_repeats=..., random_state=...)`:
the cross-validation splitter; the fold partitions it generates are a
function of these three fields alone. -/
structure CVSplitter where
  n_splits : Nat
  n_repeats : Nat
  random_state : Option Nat
deriving DecidableEq, Repr

/-- The scikit-learn collaborators used by the notebook.
`cross_val_score` and `gridSearchCV` additionally receive the ambient
global random state (a `Nat`), which real scikit-learn consumes when a
`random_state` is left unset; `cross_val_score_seeded` is its
documented reproducibility contract: when both the classifier and the
splitter carry an explicit `random_state`, the scores do not depend on
the ambient state. -/
structure SKLearn where
  cross_val_score : ClassifierSpec → CVSplitter → List (List ℚ) → List Int → Nat → List ℚ
  gridSearchCV : ClassifierSpec → Grid → Nat → List (List ℚ) → List Int → Nat → Params
  cross_val_score_seeded : ∀ spec cv X y g g',
    spec.random_state.isSome → cv.random_state.isSome →
    cross_val_score spec cv X y g = cross_val_score spec cv X y g'

/-- The literal `parameters_list` grids of the grid-search cell, in the
order RF, AdaBoost, SVC, MLP. -/
def parameters_list : List Grid :=
  [[("n_estimators", [.nat 20, .nat 50, .nat 100, .nat 200]),
    ("max_depth", [.nat 10, .nat 20, .nat 50, .nat 100]),
    ("max_features", [.str "sqrt", .str "log2"])],
   [("n_estimators", [.nat 20, .nat 50, .nat 100, .nat 200]),
    ("learning_rate", [.rat (1/10), .rat 1, .rat 5, .rat 10])],
   [("kernel", [.str "linear", .str "rbf", .str "sigmoid", .str "poly"]),
    ("C", [.rat (1/10), .rat 1, .rat 10])],
   [("hidden_layer_sizes",
      [.nat 32, .nat 64, .nat 128, .nat 256, .nat 512,
       .pair 512 64, .pair 256 32, .pair 128 32]),
    ("batch_size", [.nat 16, .nat 32]),
    ("learning_rate_init", [.rat (1/100), .rat (1/1000)]),
    ("max_iter", [.nat 1000]),
    ("early_stopping", [.bool true])]]

/-- The classifier family names of the notebook, in order. -/
def model_names : List String := ["RF", "AdaBoost", "SVC", "MLP"]

/-- The classifier family list (`model_list`) of the notebook, in
order. -/
def model_list : List Family := [.RF, .AdaBoost, .SVC, .MLP]

/-- The classifier constructed for one search iteration: `model()`,
i.e. the bare constructor with no arguments — in particular no
`random_state`. -/
def defaultClassifier (f : Family) : ClassifierSpec :=
  { family := f, params := [], random_state := none }

/-- The classifiers the grid-search loop constructs, paired with their
names and grids: `zip(model_list, model_names, parameters_list)` with
`model()` for each entry. -/
def grid_search_classifiers : List (String × ClassifierSpec × Grid) :=
  (model_names.zip (model_list.zip parameters_list)).map
    (fun p => (p.1, defaultClassifier p.2.1, p.2.2))

/-- The grid-search loop: for each family, run
`GridSearchCV(pipeline, parameters, n_jobs=-1, cv=10,
scoring='balanced_accuracy').fit(Xs, ys)` on the unseeded classifier
and record the best parameters under the family name. -/
def run_grid_search (env : SKLearn) (Xs : List (List ℚ)) (ys : List Int)
    (g : Nat) : List (String × Params) :=
  grid_search_classifiers.map
    (fun entry => (entry.1, env.gridSearchCV entry.2.1 entry.2.2 10 Xs ys g))

/-- The fixed `random_seed = 42` of the evaluation cell. -/
def random_seed : Nat := 42

/-- The four classifiers constructed in `cv_res`, each from the
best-parameters record of its family and with
`random_state=random_seed`, keyed as in the result dictionary. -/
def cv_res_classifiers (best_params : Family → Params) :
    List (String × ClassifierSpec) :=
  [("RF", { family := .RF, params := best_params .RF,
            random_state := some random_seed }),
   ("AdaBoost", { family := .AdaBoost, params := best_params .AdaBoost,
                  random_state := some random_seed }),
   ("SVC", { family := .SVC, params := best_params .SVC,
             random_state := some random_seed }),
   ("MLP", { family := .MLP, params := best_params .MLP,
             random_state := some random_seed })]

/-- The single splitter of the evaluation cell:
`RepeatedKFold(n_splits=10, n_repeats=5, random_state=random_seed)`,
shared by all four `cross_val_score` calls. -/
def cv_res_splitter : CVSplitter :=
  { n_splits := 10, n_repeats := 5, random_state := some random_seed }

/-- The arithmetic mean of a list of rationals. -/
def listMean (xs : List ℚ) : ℚ := xs.sum / (xs.length : ℚ)

/-- `xs.reshape(-1, width)` as a list of rows: row `i` is the
contiguous slice of `width` elements starting at `width * i`. -/
def npReshapeRows (width : Nat) (xs : List ℚ) : List (List ℚ) :=
  (List.range (xs.length / width)).map
    (fun i => (xs.drop (width * i)).take width)

/-- `np.mean(scores.reshape(-1, 10), axis=1)`: group the raw per-fold
scores into rows of 10 and average each row. -/
def cvReshape (scores : List ℚ) : List ℚ :=
  (npReshapeRows 10 scores).map listMean

/-- `cv_res(Xs, ys, best_params)`: construct the four seeded
classifiers, score each with `cross_val_score` against the shared
splitter, and reduce each raw score vector with the reshape-and-mean
step.  `g` is the ambient global random state. -/
def cv_res (env : SKLearn) (Xs : List (List ℚ)) (ys : List Int)
    (best_params : Family → Params) (g : Nat) : List (String × List ℚ) :=
  (cv_res_classifiers best_params).map
    (fun entry =>
      (entry.1, cvReshape (env.cross_val_score entry.2 cv_res_splitter Xs ys g)))

/-!
Small concrete instances of the abstract collaborators, used to
evaluate the theorems on concrete inputs.
-/

/-- A toy encoder: token `i` is represented by the row `[i, 1]`, so the
hidden dimension is 2 and there is one row per token. -/
def demoModel : EncoderModel where
  hidden_dim := 2
  forward := fun ids => ids.map (fun i : ℕ => [(i : ℚ), 1])
  forward_rows := by intro ids; rw [List.length_map]
  forward_dim := by
    intro ids row h
    simp only [List.mem_map] at h
    obtain ⟨i, -, rfl⟩ := h
    rfl

/-- A toy tokenizer: begin-of-sequence id 0, end-of-sequence id 2, one
token per character (its code point), context bounded at 5 residues. -/
def demoTokenizer : Tokenizer where
  cls_id := 0
  eos_id := 2
  encode_residues := fun s =>
    if s.length ≤ 5 then some (s.toList.map Char.toNat) else none

/-- A toy environment: only the LassoESM path loads, and three data
files exist — a well-formed one, one containing an over-long sequence,
and nothing else (unknown files model empty/malformed CSVs). -/
def demoEnv : ExtractEnv where
  load := fun p =>
    if p = "ShuklaGroupIllinois/LassoESM" then some (demoModel, demoTokenizer)
    else none
  read_csv := fun f =>
    if f = "FusA.csv" then some ["AB", "C"]
    else if f = "bad.csv" then some ["AB", "TOOLONGSEQ"]
    else none

/-- The empty filesystem. -/
def emptyFS : FsState := fun _ => none

/-- A synthetic 50-element score vector, 0 through 49. -/
def demoScores : List ℚ := (List.range 50).map (fun n : ℕ => (n : ℚ))

/-!
Helper lemmas about the embedding-side definitions.
-/

theorem getD_map_range {α : Type} (d : α) (f : ℕ → α) {j n : ℕ} (h : j < n) :
    ((List.range n).map f).getD j d = f j := by
  rw [List.getD_eq_getElem?_getD, List.getElem?_map, List.getElem?_range h]
  rfl

theorem vecMean_length (rows : List (List ℚ)) (dim : ℕ) :
    (vecMean rows dim).length = dim := by
  simp [vecMean]

theorem vecMean_getD (rows : List (List ℚ)) {j dim : ℕ} (h : j < dim) :
    (vecMean rows dim).getD j 0 =
      (rows.map (fun row => row.getD j 0)).sum / (rows.length : ℚ) := by
  unfold vecMean
  rw [getD_map_range 0 _ h]

theorem embed_all_length {model : EncoderModel} {tokenizer : Tokenizer}
    {seqs : List String} {embs : List (List ℚ)}
    (h : embed_all model tokenizer seqs = some embs) :
    embs.length = seqs.length := by
  induction seqs generalizing embs with
  | nil =>
    simp only [embed_all, Option.some.injEq] at h
    subst h; rfl
  | cons s rest ih =>
    simp only [embed_all, Option.bind_eq_some, Option.map_eq_some'] at h
    obtain ⟨v, hv, vs, hvs, rfl⟩ := h
    simp [ih hvs]

theorem embed_all_getD {model : EncoderModel} {tokenizer : Tokenizer}
    {seqs : List String} {embs : List (List ℚ)}
    (h : embed_all model tokenizer seqs = some embs) :
    ∀ i, i < seqs.length →
      get_mean_rep (seqs.getD i "") model tokenizer = some (embs.getD i []) := by
  induction seqs generalizing embs with
  | nil => intro i hi; simp at hi
  | cons s rest ih =>
    simp only [embed_all, Option.bind_eq_some, Option.map_eq_some'] at h
    obtain ⟨v, hv, vs, hvs, rfl⟩ := h
    intro i hi
    cases i with
    | zero => simpa using hv
    | succ i =>
      simpa using ih hvs i (by simpa using hi)

theorem embed_all_none_of_mem {model : EncoderModel} {tokenizer : Tokenizer}
    {seqs : List String} {s : String}
    (hs : s ∈ seqs) (hfail : get_mean_rep s model tokenizer = none) :
    embed_all model tokenizer seqs = none := by
  induction seqs with
  | nil => cases hs
  | cons a rest ih =>
    rcases List.mem_cons.mp hs with rfl | hmem
    · simp [embed_all, hfail]
    · cases hga : get_mean_rep a model tokenizer <;>
        simp [embed_all, hga, ih hmem]

theorem sum_drop_take (xs : List ℚ) :
    ∀ (b a : ℕ), a + b ≤ xs.length →
      ((xs.drop a).take b).sum = ∑ i ∈ Finset.range b, xs.getD (a + i) 0 := by
  intro b
  induction b with
  | zero => intro a _; simp
  | succ b ih =>
    intro a hab
    have ha : a < xs.length := by omega
    rw [List.drop_eq_getElem_cons ha, List.take_succ_cons, List.sum_cons,
      ih (a + 1) (by omega), Finset.sum_range_succ', add_comm]
    congr 1
    · apply Finset.sum_congr rfl
      intro i _
      congr 1
      omega
    · simp [List.getD_eq_getElem?_getD, List.getElem?_eq_getElem ha]

/-!
Claim theorems.
-/

/-- Claim C1: for every non-empty list of input sequences, the matrix
produced and persisted by `process_embeddings` has exactly one row per
input sequence, and row `i` is the embedding of input sequence `i`: the
row count equals the input list length, row order equals file order,
and the persisted artifact holds exactly this matrix. -/
theorem C1_process_embeddings_rows (env : ExtractEnv) (fs : FsState)
    (data_file model_name : String) (config : ModelConfig)
    (model : EncoderModel) (tokenizer : Tokenizer)
    (seq_ls : List String) (M : List (List ℚ))
    (hcfg : MODELS.lookup model_name = some config)
    (hload : env.load config.model_path = some (model, tokenizer))
    (hcsv : env.read_csv data_file = some seq_ls)
    (_hne : seq_ls ≠ [])
    (hok : (process_embeddings env fs data_file model_name).2 = Except.ok M) :
    M.length = seq_ls.length ∧
    (∀ i, i < seq_ls.length →
      get_mean_rep (seq_ls.getD i "") model tokenizer = some (M.getD i [])) ∧
    (process_embeddings env fs data_file model_name).1 config.output_file =
      some M := by
  simp only [process_embeddings, hcfg, hload, hcsv] at hok ⊢
  cases hemb : embed_all model tokenizer seq_ls with
  | none => rw [hemb] at hok; simp at hok
  | some embs =>
    rw [hemb] at hok
    simp only [Except.ok.injEq] at hok
    subst hok
    refine ⟨embed_all_length hemb, embed_all_getD hemb, ?_⟩
    simp [fsWrite]

/-- Claim C1 witness: on the toy environment, the two-sequence file
yields the two-row matrix in input order, persisted at the configured
path. -/
theorem C1_process_embeddings_rows_witness :
    ([[133/4, 1], [23, 1]] : List (List ℚ)).length =
      (["AB", "C"] : List String).length ∧
    (process_embeddings demoEnv emptyFS "FusA.csv" "Lasso_ESM").1
      "FusA_LassoESM.npy" = some [[133/4, 1], [23, 1]] := by
  have h := C1_process_embeddings_rows demoEnv emptyFS "FusA.csv" "Lasso_ESM"
    { model_path := "ShuklaGroupIllinois/LassoESM",
      output_file := "FusA_LassoESM.npy" }
    demoModel demoTokenizer ["AB", "C"] [[133/4, 1], [23, 1]]
    (by decide) (by simp [demoEnv]) (by simp [demoEnv]) (by decide)
    (by norm_num +decide [process_embeddings, demoEnv, demoModel, demoTokenizer,
      embed_all, get_mean_rep, Tokenizer.tokenize, vecMean, fsWrite, MODELS,
      List.range_succ, show Char.toNat 'A' = 65 from by decide,
      show Char.toNat 'B' = 66 from by decide,
      show Char.toNat 'C' = 67 from by decide])
  exact ⟨h.1, h.2.2⟩

/-- Claim C2: for every sequence the tokenizer accepts (i.e. shorter
than the model context), `get_mean_rep` returns the arithmetic mean
across the token axis of the last hidden-state layer, a vector whose
length equals the model's hidden dimension, independent of the
sequence's length. -/
theorem C2_get_mean_rep_dim (s : String) (model : EncoderModel)
    (tokenizer : Tokenizer) (ids : List Nat)
    (htok : tokenizer.tokenize s = some ids) :
    get_mean_rep s model tokenizer =
      some (vecMean (model.forward ids) model.hidden_dim) ∧
    (vecMean (model.forward ids) model.hidden_dim).length =
      model.hidden_dim := by
  exact ⟨by simp [get_mean_rep, htok], vecMean_length _ _⟩

/-- Claim C2 witness: the single-residue toy sequence maps to a
2-component vector, the toy model's hidden dimension. -/
theorem C2_get_mean_rep_dim_witness :
    get_mean_rep "C" demoModel demoTokenizer =
      some (vecMean (demoModel.forward [0, 67, 2]) demoModel.hidden_dim) ∧
    (vecMean (demoModel.forward [0, 67, 2]) demoModel.hidden_dim).length =
      demoModel.hidden_dim :=
  C2_get_mean_rep_dim "C" demoModel demoTokenizer [0, 67, 2] (by decide)

/-- Claim C3: `process_embeddings` is all-or-nothing — if embedding any
sequence of the input list fails, the whole call fails with a
tokenization error and the filesystem is unchanged, so no truncated or
partial matrix is ever persisted. -/
theorem C3_all_or_nothing (env : ExtractEnv) (fs : FsState)
    (data_file model_name : String) (config : ModelConfig)
    (model : EncoderModel) (tokenizer : Tokenizer)
    (seq_ls : List String) (s : String)
    (hcfg : MODELS.lookup model_name = some config)
    (hload : env.load config.model_path = some (model, tokenizer))
    (hcsv : env.read_csv data_file = some seq_ls)
    (hs : s ∈ seq_ls)
    (hfail : get_mean_rep s model tokenizer = none) :
    process_embeddings env fs data_file model_name =
      (fs, .error .tokenizationError) := by
  simp only [process_embeddings, hcfg, hload, hcsv,
    embed_all_none_of_mem hs hfail]

/-- Claim C3 witness: a file whose second sequence exceeds the toy
context makes the whole call fail with the filesystem untouched. -/
theorem C3_all_or_nothing_witness :
    process_embeddings demoEnv emptyFS "bad.csv" "Lasso_ESM" =
      (emptyFS, .error .tokenizationError) :=
  C3_all_or_nothing demoEnv emptyFS "bad.csv" "Lasso_ESM"
    { model_path := "ShuklaGroupIllinois/LassoESM",
      output_file := "FusA_LassoESM.npy" }
    demoModel demoTokenizer ["AB", "TOOLONGSEQ"] "TOOLONGSEQ"
    (by decide) (by simp [demoEnv]) (by simp [demoEnv]) (by decide) (by decide)

/-- Claim C4: for every model name absent from the `MODELS`
configuration, `process_embeddings` fails with a configuration error
identifying the unknown name, and the filesystem is unchanged. -/
theorem C4_unknown_model (env : ExtractEnv) (fs : FsState)
    (data_file model_name : String)
    (h : MODELS.lookup model_name = none) :
    process_embeddings env fs data_file model_name =
      (fs, .error (.configError model_name)) := by
  simp only [process_embeddings, h]

/-- Claim C4 witness: an unconfigured model name fails with its own
name in the error and leaves the empty filesystem empty. -/
theorem C4_unknown_model_witness :
    process_embeddings demoEnv emptyFS "FusA.csv" "NoSuchModel" =
      (emptyFS, .error (.configError "NoSuchModel")) :=
  C4_unknown_model demoEnv emptyFS "FusA.csv" "NoSuchModel" (by decide)

/-- Claim C5: for every sequence of 50 raw per-fold scores, the
Evaluator's reshaping step (`reshape(-1, 10)` then mean over axis 1)
yields exactly 5 values, and value `j` is the arithmetic mean of the
contiguous 10-element group of inputs with indices `10*j` through
`10*j + 9`. -/
theorem C5_reshape_means (scores : List ℚ) (h : scores.length = 50) :
    (cvReshape scores).length = 5 ∧
    ∀ j, j < 5 → (cvReshape scores).getD j 0 =
      (∑ i ∈ Finset.range 10, scores.getD (10 * j + i) 0) / 10 := by
  have hlen5 : scores.length / 10 = 5 := by rw [h]
  constructor
  · simp [cvReshape, npReshapeRows, hlen5]
  · intro j hj
    have h1 : cvReshape scores = (List.range 5).map
        (fun i => listMean ((scores.drop (10 * i)).take 10)) := by
      simp [cvReshape, npReshapeRows, hlen5, List.map_map]
    rw [h1, getD_map_range 0 _ hj]
    have hslice : ((scores.drop (10 * j)).take 10).length = 10 := by
      simp only [List.length_take, List.length_drop, h]
      omega
    unfold listMean
    rw [hslice, sum_drop_take scores 10 (10 * j) (by omega)]
    norm_num

/-- Claim C5 witness: on the synthetic scores 0..49, the reshaping
yields 5 values and the third one is the mean of indices 20..29. -/
theorem C5_reshape_means_witness :
    (cvReshape demoScores).length = 5 ∧
    (cvReshape demoScores).getD 2 0 = 49 / 2 := by
  have hlen : demoScores.length = 50 := by simp [demoScores]
  have h := C5_reshape_means demoScores hlen
  refine ⟨h.1, (h.2 2 (by norm_num)).trans ?_⟩
  norm_num [demoScores, Finset.sum_range_succ, List.getD_eq_getElem?_getD,
    List.getElem?_map, List.getElem?_range]

/-- Claim C6: the Evaluator is deterministic and comparable across
families — all four classifiers are scored against the single shared
splitter `RepeatedKFold(n_splits=10, n_repeats=5, random_state=42)`,
every classifier carries the fixed seed 42, and therefore two runs of
`cv_res` under different ambient random states produce identical
Cross-Validation Result values for every family. -/
theorem C6_cv_res_deterministic (env : SKLearn) (Xs : List (List ℚ))
    (ys : List Int) (best_params : Family → Params) (g g' : Nat) :
    cv_res env Xs ys best_params g = cv_res env Xs ys best_params g' ∧
    cv_res_splitter =
      { n_splits := 10, n_repeats := 5, random_state := some 42 } ∧
    (cv_res env Xs ys best_params g).map Prod.fst =
      ["RF", "AdaBoost", "SVC", "MLP"] := by
  refine ⟨?_, rfl, by simp [cv_res, cv_res_classifiers]⟩
  simp only [cv_res, cv_res_classifiers, List.map_cons, List.map_nil]
  rw [env.cross_val_score_seeded
      { family := .RF, params := best_params .RF,
        random_state := some random_seed } cv_res_splitter Xs ys g g' rfl rfl,
    env.cross_val_score_seeded
      { family := .AdaBoost, params := best_params .AdaBoost,
        random_state := some random_seed } cv_res_splitter Xs ys g g' rfl rfl,
    env.cross_val_score_seeded
      { family := .SVC, params := best_params .SVC,
        random_state := some random_seed } cv_res_splitter Xs ys g g' rfl rfl,
    env.cross_val_score_seeded
      { family := .MLP, params := best_params .MLP,
        random_state := some random_seed } cv_res_splitter Xs ys g g' rfl rfl]

/-- Claim C7: seeding asymmetry between phases — every classifier
constructed by the grid-search loop is built without a random seed,
while every classifier constructed by the evaluation phase carries the
fixed seed 42. -/
theorem C7_seeding_asymmetry :
    (∀ entry ∈ grid_search_classifiers, entry.2.1.random_state = none) ∧
    (∀ best_params : Family → Params,
      ∀ entry ∈ cv_res_classifiers best_params,
        entry.2.random_state = some 42) := by
  constructor
  · decide
  · intro bp entry h
    simp only [cv_res_classifiers, List.mem_cons, List.not_mem_nil,
      or_false] at h
    rcases h with rfl | rfl | rfl | rfl <;> rfl

/-- Claim C7 witness: the RF classifier of the search phase is unseeded
and the RF classifier of the evaluation phase is seeded with 42. -/
theorem C7_seeding_asymmetry_witness :
    ("RF", defaultClassifier .RF,
      ([("n_estimators", [.nat 20, .nat 50, .nat 100, .nat 200]),
        ("max_depth", [.nat 10, .nat 20, .nat 50, .nat 100]),
        ("max_features", [.str "sqrt", .str "log2"])] : Grid)).2.1.random_state
      = none ∧
    ("RF", ClassifierSpec.mk .RF [] (some random_seed)).2.random_state
      = some 42 :=
  ⟨C7_seeding_asymmetry.1 _ (by decide),
   C7_seeding_asymmetry.2 (fun _ => []) _ (by simp [cv_res_classifiers])⟩

/-- Claim C8: an input file that is empty or missing the expected
columns makes the run fail with an input-format error that terminates
the call: no artifact is created or modified, the filesystem is
returned unchanged. -/
theorem C8_input_format_error (env : ExtractEnv) (fs : FsState)
    (data_file model_name : String) (config : ModelConfig)
    (mt : EncoderModel × Tokenizer)
    (hcfg : MODELS.lookup model_name = some config)
    (hload : env.load config.model_path = some mt)
    (hcsv : env.read_csv data_file = none) :
    process_embeddings env fs data_file model_name =
      (fs, .error .inputFormatError) := by
  simp only [process_embeddings, hcfg, hload, hcsv]

/-- Claim C8 witness: an unreadable data file fails with an
input-format error and the empty filesystem stays empty. -/
theorem C8_input_format_error_witness :
    process_embeddings demoEnv emptyFS "empty.csv" "Lasso_ESM" =
      (emptyFS, .error .inputFormatError) :=
  C8_input_format_error demoEnv emptyFS "empty.csv" "Lasso_ESM"
    { model_path := "ShuklaGroupIllinois/LassoESM",
      output_file := "FusA_LassoESM.npy" }
    (demoModel, demoTokenizer)
    (by decide) (by simp [demoEnv]) (by simp [demoEnv])

/-- Claim C9 counterexample: the configured output files do not all
follow `<target>_<ModelName>.npy` with the fixed target prefix `FusA`
and the model's configured name — `Lasso_ESM` is configured to write
`FusA_LassoESM.npy`, not `FusA_Lasso_ESM.npy`, and `PeptideESM` writes
`FusA_PeptideESM_650M.npy`, not `FusA_PeptideESM.npy`. -/
theorem C9_naming_counterexample :
    ¬ ∀ p ∈ MODELS, p.2.output_file = "FusA" ++ "_" ++ p.1 ++ ".npy" := by
  decide

/-- Claim C9 (amended): every configured model writes a single binary
array file whose name starts with the fixed target prefix `FusA_` and
ends in `.npy`; the configured file names are pairwise distinct
(exactly one artifact per configured model); and a rerun for the same
model writes the new matrix to that same configured path, overwriting
whatever the filesystem previously held there. -/
theorem C9_output_artifacts :
    (∀ p ∈ MODELS, p.2.output_file.take 5 = "FusA_" ∧
      p.2.output_file.takeRight 4 = ".npy") ∧
    (MODELS.map (fun p => p.2.output_file)).Nodup ∧
    (∀ env fs data_file model_name config M,
      MODELS.lookup model_name = some config →
      (process_embeddings env fs data_file model_name).2 = Except.ok M →
      (process_embeddings env fs data_file model_name).1 config.output_file =
        some M) := by
  refine ⟨by decide, by decide, ?_⟩
  intro env fs data_file model_name config M hcfg hok
  cases hl : env.load config.model_path with
  | none => simp [process_embeddings, hcfg, hl] at hok
  | some mt =>
    obtain ⟨model, tokenizer⟩ := mt
    cases hc : env.read_csv data_file with
    | none => simp [process_embeddings, hcfg, hl, hc] at hok
    | some seq_ls =>
      cases he : embed_all model tokenizer seq_ls with
      | none => simp [process_embeddings, hcfg, hl, hc, he] at hok
      | some embs =>
        simp only [process_embeddings, hcfg, hl, hc, he] at hok ⊢
        simp only [Except.ok.injEq] at hok
        subst hok
        simp [fsWrite]

/-- Claim C9 witness: rerunning extraction for `Lasso_ESM` over a
filesystem that already holds an old matrix at `FusA_LassoESM.npy`
replaces it with the newly computed matrix. -/
theorem C9_output_artifacts_witness :
    (process_embeddings demoEnv
      (fsWrite emptyFS "FusA_LassoESM.npy" [[99]])
      "FusA.csv" "Lasso_ESM").1 "FusA_LassoESM.npy" =
      some [[133/4, 1], [23, 1]] :=
  C9_output_artifacts.2.2 demoEnv (fsWrite emptyFS "FusA_LassoESM.npy" [[99]])
    "FusA.csv" "Lasso_ESM"
    { model_path := "ShuklaGroupIllinois/LassoESM",
      output_file := "FusA_LassoESM.npy" }
    [[133/4, 1], [23, 1]] (by decide)
    (by norm_num +decide [process_embeddings, demoEnv, demoModel, demoTokenizer,
      embed_all, get_mean_rep, Tokenizer.tokenize, vecMean, fsWrite, MODELS,
      List.range_succ, show Char.toNat 'A' = 65 from by decide,
      show Char.toNat 'B' = 66 from by decide,
      show Char.toNat 'C' = 67 from by decide])

/-- Claim C10: for every sequence the tokenizer accepts, `get_mean_rep`
averages all rows of the final hidden-state matrix produced from the
tokenizer's full output — which wraps the residue tokens in the
begin- and end-of-sequence special tokens — so the divisor counts the
two special positions (`r.length + 2` rows) and the numerator sums
every row; no position is masked out or excluded. -/
theorem C10_no_masking (s : String) (model : EncoderModel)
    (tok : Tokenizer) (r : List Nat)
    (henc : tok.encode_residues s = some r) :
    get_mean_rep s model tok =
      some (vecMean (model.forward (tok.cls_id :: r ++ [tok.eos_id]))
        model.hidden_dim) ∧
    (model.forward (tok.cls_id :: r ++ [tok.eos_id])).length =
      r.length + 2 ∧
    ∀ j, j < model.hidden_dim →
      (vecMean (model.forward (tok.cls_id :: r ++ [tok.eos_id]))
          model.hidden_dim).getD j 0 =
        ((model.forward (tok.cls_id :: r ++ [tok.eos_id])).map
          (fun row => row.getD j 0)).sum / ((r.length : ℚ) + 2) := by
  have htok : tok.tokenize s = some (tok.cls_id :: r ++ [tok.eos_id]) := by
    simp [Tokenizer.tokenize, henc]
  have hrows : (model.forward (tok.cls_id :: r ++ [tok.eos_id])).length =
      r.length + 2 := by
    rw [model.forward_rows]
    simp
  refine ⟨by simp [get_mean_rep, htok], hrows, ?_⟩
  intro j hj
  rw [vecMean_getD _ hj, hrows]
  push_cast
  ring

/-- Claim C10 witness: on the two-residue toy sequence the forward
matrix has 2 + 2 rows — the residue rows plus the begin- and
end-of-sequence rows — and that full matrix is what gets averaged. -/
theorem C10_no_masking_witness :
    get_mean_rep "AB" demoModel demoTokenizer =
      some (vecMean (demoModel.forward
        (demoTokenizer.cls_id :: [65, 66] ++ [demoTokenizer.eos_id]))
        demoModel.hidden_dim) ∧
    (demoModel.forward
      (demoTokenizer.cls_id :: [65, 66] ++ [demoTokenizer.eos_id])).length =
      ([65, 66] : List ℕ).length + 2 := by
  have h := C10_no_masking "AB" demoModel demoTokenizer [65, 66] (by decide)
  exact ⟨h.1, h.2.1⟩
